import Mathlib

/-!
# Verification of the HLS synthesis-job orchestration and report-parsing pipeline

Shallow embedding of the core of `hls_script.py` (the `hls_evaluation`
function with its inner `parse_reports`, `safe_convert` and
`safe_resource_convert`) and of the classifier in `verify_c2c.py`
(`verify_example`).

Modelling conventions:
* Python strings are Lean `String`s; all character-level work is done on
  `String.data` (`List Char`) so that every definition evaluates inside the
  kernel.
* Python `str.split`, `str.strip`, `in` (substring test) and negative slicing
  are re-implemented below with Python semantics (`pySplit`, `pyStrip`,
  `strContains`, `pyTakeRight`).
* Python numbers appearing in report cells are modelled by `PyVal`
  (`int` / `float` / `str`); `float` values are represented as rationals,
  and `float(...)` / `int(...)` parsing accepts the plain decimal forms that
  occur in report cells (optional sign, digits, optional fractional part).
* Fallible Python code (`float(...)` raising `ValueError`, list indexing
  raising `IndexError`) is modelled in `Except String`; the `try/except`
  around the report parse becomes an explicit `match` on that `Except`.
* The filesystem/time effects (spawning the process, the 1-second poll
  sleeps, reading the report file) are abstracted into explicit inputs: the
  process outcome is a `ProcResult`, and the located report file is an
  `Option String` (`none` = the report never appeared within the poll
  budget).  `pollReport` models the bounded existence-check loop itself.
-/

/-! ## Python string primitives -/

/-- Python whitespace test for the characters that `str.strip` / `\s` remove
(the ASCII ones; the report format produces only spaces and newlines). -/
def isPyWS (c : Char) : Bool :=
  c = ' ' || c = '\t' || c = '\n' || c = '\r'

/-- Here `isPrefixL p l` means: `p` is a prefix of `l`. -/
def isPrefixL : List Char → List Char → Bool
  | [], _ => true
  | _ :: _, [] => false
  | p :: ps, c :: cs => p = c && isPrefixL ps cs

/-- Python `pat in s` on char lists (substring occurrence; `[]` always occurs). -/
def containsL (pat : List Char) : List Char → Bool
  | [] => isPrefixL pat []
  | c :: cs => isPrefixL pat (c :: cs) || containsL pat cs

/-- Python `pat in s`. -/
def strContains (s pat : String) : Bool :=
  containsL pat.data s.data

/-- Python `s.strip()` on char lists. -/
def stripL (cs : List Char) : List Char :=
  ((cs.dropWhile isPyWS).reverse.dropWhile isPyWS).reverse

/-- Python `s.strip()`. -/
def pyStrip (s : String) : String :=
  ⟨stripL s.data⟩

/-- One splitting pass of Python `s.split(sep)` for non-empty `sep`:
`acc` is the current chunk, reversed.  `fuel` only drives structural
recursion (each step consumes at least one character, so any
`fuel ≥ cs.length` gives the same answer). -/
def splitGo (sep : List Char) : Nat → List Char → List Char → List (List Char)
  | _, [], acc => [acc.reverse]
  | 0, _ :: _, acc => [acc.reverse]
  | fuel + 1, c :: cs, acc =>
    if isPrefixL sep (c :: cs) then
      acc.reverse :: splitGo sep fuel (cs.drop (sep.length - 1)) []
    else
      splitGo sep fuel cs (c :: acc)

/-- Python `s.split(sep)` (every use site passes a non-empty separator;
an empty separator returns the whole string, unused). -/
def pySplit (s sep : String) : List String :=
  if sep.data = [] then [s]
  else (splitGo sep.data s.data.length s.data []).map (fun cs => ⟨cs⟩)

/-- Python `s[-n:]` for a non-negative `n` (the last at most `n` characters). -/
def pyTakeRight (s : String) (n : Nat) : String :=
  ⟨s.data.drop (s.data.length - n)⟩

/-! ## Python numeric parsing (`int(...)`, `float(...)`) -/

def isDigitC (c : Char) : Bool :=
  '0' ≤ c && c ≤ '9'

def digitVal (c : Char) : Nat := c.toNat - 48

def natOfDigits (ds : List Char) : Nat :=
  ds.foldl (fun a c => a * 10 + digitVal c) 0

/-- Python `int(s)` on the already-stripped text: optional sign then one or more
digits, else `ValueError` (`none`). -/
def pyIntL (cs : List Char) : Option Int :=
  let core : List Char → Bool := fun ds => !ds.isEmpty && ds.all isDigitC
  match cs with
  | '+' :: rest => if core rest then some (natOfDigits rest : Int) else none
  | '-' :: rest => if core rest then some (-(natOfDigits rest : Int)) else none
  | _ => if core cs then some (natOfDigits cs : Int) else none

def pyInt (s : String) : Option Int := pyIntL s.data

/-- Python `float(s)` on the already-stripped text, restricted to the plain decimal
forms occurring in report cells: optional sign, digits, optional `.` and
fractional digits (at least one digit overall).  The exotic accepted forms of
Python `float` (exponents, `inf`, `nan`) never occur in report tables and are
rejected (`ValueError`). -/
def pyFloatL (cs : List Char) : Option Rat :=
  let signed : Bool → Nat → Int := fun neg n =>
    if neg then -(n : Int) else (n : Int)
  let body : Bool → List Char → Option Rat := fun neg ds =>
    let ip := ds.takeWhile isDigitC
    let rest := ds.drop ip.length
    match rest with
    | [] =>
      if ip.isEmpty then none
      else some (mkRat (signed neg (natOfDigits ip)) 1)
    | '.' :: fp =>
      if fp.all isDigitC && (!ip.isEmpty || !fp.isEmpty) then
        some (mkRat (signed neg (natOfDigits (ip ++ fp))) (10 ^ fp.length))
      else none
    | _ => none
  match cs with
  | '+' :: rest => body false rest
  | '-' :: rest => body true rest
  | _ => body false cs

def pyFloat (s : String) : Option Rat := pyFloatL s.data

/-- Python `float(s)` as the raising operation (`ValueError` modelled in `Except`). -/
def pyFloatE (s : String) : Except String Rat :=
  match pyFloat s with
  | some q => .ok q
  | none => .error ("could not convert string to float: " ++ s)

/-- Python list indexing `l[i]` for `i ≥ 0` (`IndexError` in `Except`). -/
def pyIdx (l : List String) (i : Nat) : Except String String :=
  match l.get? i with
  | some x => .ok x
  | none => .error "list index out of range"

/-- The `UnboundLocalError` raised when a function-local name is referenced
before the `def`/assignment binding it has executed (the message text
varies across Python versions and no caller inspects it). -/
def pyUnboundLocal (name : String) : String :=
  "cannot access local variable " ++ name ++
    " where it is not associated with a value"

/-! ## Report cell values -/

/-- A value stored in a parsed report cell: Python `int`, `float` or `str`.
The unresolved sentinel is the string value `"?"`. -/
inductive PyVal where
  | vInt (n : Int)
  | vRat (q : Rat)
  | vStr (s : String)
  deriving DecidableEq, Repr

/-- Function `safe_convert` (hls_script.py lines 184-194): strip; keep the unknown
marker `"?"` verbatim; else try `int`, else `float`, else keep the text. -/
def safe_convert (s : String) : PyVal :=
  let v := pyStrip s
  if v = "?" then .vStr "?"
  else
    match pyInt v with
    | some n => .vInt n
    | none =>
      match pyFloat v with
      | some q => .vRat q
      | none => .vStr v

/-- Function `safe_resource_convert` (hls_script.py lines 223-235): like
`safe_convert` but a literal dash means "not applicable" and is encoded as
the integer `0`. -/
def safe_resource_convert (s : String) : PyVal :=
  let v := pyStrip s
  if v = "?" then .vStr "?"
  else if v = "-" then .vInt 0
  else
    match pyInt v with
    | some n => .vInt n
    | none =>
      match pyFloat v with
      | some q => .vRat q
      | none => .vStr v

/-! ## The structural matcher

`parse_reports` locates each report section with `re.search` over a regex
whose only quantified pieces are `\s+`, `=+`, `-+` and the capture cells
`([^|]+)`, each immediately followed by a literal whose first character the
quantified class cannot match (`+`, `|`, `*`, `=` after `\s+`; `+` after
`-+`; `|` after `[^|]+`; whitespace after `=+`).  Greedy backtracking
matching therefore coincides with deterministic maximal-munch matching, which
is how `matchToks` is written.  `searchToks` tries every start position left
to right, exactly like `re.search`. -/

/-- One regex token of the three section patterns. -/
inductive Tok where
  /-- a literal piece of the pattern -/
  | lit (s : String)
  /-- token `\s+` -/
  | ws
  /-- token `=+` -/
  | eqs
  /-- token `-+` -/
  | dashes
  /-- one capture cell `([^|]+)` -/
  | cell

/-- Maximal-munch match of the token list against a prefix of `cs`,
returning the captured cells. -/
def matchToks : List Tok → List Char → Option (List (List Char))
  | [], _ => some []
  | .lit p :: ts, cs =>
    if isPrefixL p.data cs then matchToks ts (cs.drop p.data.length) else none
  | .ws :: ts, cs =>
    let n := (cs.takeWhile isPyWS).length
    if n = 0 then none else matchToks ts (cs.drop n)
  | .eqs :: ts, cs =>
    let n := (cs.takeWhile (fun c => c = '=')).length
    if n = 0 then none else matchToks ts (cs.drop n)
  | .dashes :: ts, cs =>
    let n := (cs.takeWhile (fun c => c = '-')).length
    if n = 0 then none else matchToks ts (cs.drop n)
  | .cell :: ts, cs =>
    let n := (cs.takeWhile (fun c => c ≠ '|')).length
    if n = 0 then none
    else (matchToks ts (cs.drop n)).map (fun gs => cs.take n :: gs)

/-- Like `re.search`: try the match at every position, leftmost first. -/
def searchToks (ts : List Tok) : List Char → Option (List (List Char))
  | [] => matchToks ts []
  | c :: cs =>
    match matchToks ts (c :: cs) with
    | some gs => some gs
    | none => searchToks ts cs

/-- Run a section pattern over the report text, groups as strings. -/
def runSearch (ts : List Tok) (content : String) : Option (List String) :=
  (searchToks ts content.data).map (fun gs => gs.map (fun g => ⟨g⟩))

/-- The border line of the Timing table. -/
def timingBorder : String := "+--------+-------+----------+------------+"

/-- Pattern of the Timing section regex (hls_script.py line 169). -/
def timingToks : List Tok :=
  [.lit "== Performance Estimates", .ws, .eqs, .ws,
   .lit "+ Timing (ns):", .ws, .lit "* Summary:", .ws,
   .lit timingBorder, .ws,
   .lit "|  Clock | Target| Estimated| Uncertainty|", .ws,
   .lit timingBorder, .ws,
   .lit "|", .cell, .lit "|", .cell, .lit "|", .cell, .lit "|", .cell,
   .lit "|", .ws, .lit timingBorder]

/-- The border of the Latency table: `\+-----+\+-----+\+-----+\+-----+\+---------\+`
(four columns of at least five dashes, one of exactly nine). -/
def latencyBorderToks : List Tok :=
  [.lit "+----", .dashes, .lit "+----", .dashes, .lit "+----", .dashes,
   .lit "+----", .dashes, .lit "+---------+"]

/-- A data row of five capture cells. -/
def row5Toks : List Tok :=
  [.lit "|", .cell, .lit "|", .cell, .lit "|", .cell, .lit "|", .cell,
   .lit "|", .cell, .lit "|"]

/-- Pattern of the Latency section regex (hls_script.py line 180). -/
def latencyToks : List Tok :=
  [.lit "+ Latency (clock cycles):", .ws, .lit "* Summary:", .ws] ++
  latencyBorderToks ++
  [.ws, .lit "|  Latency  |  Interval | Pipeline|", .ws,
   .lit "| min | max | min | max |   Type  |", .ws] ++
  latencyBorderToks ++ [.ws] ++ row5Toks ++ [.ws] ++ latencyBorderToks

/-- The border line of the Utilization table. -/
def utilBorder : String :=
  "+-----------------+---------+-------+--------+--------+-----+"

/-- A data row of six capture cells. -/
def row6Toks : List Tok :=
  [.lit "|", .cell, .lit "|", .cell, .lit "|", .cell, .lit "|", .cell,
   .lit "|", .cell, .lit "|", .cell, .lit "|"]

/-- Pattern of the Utilization section regex (hls_script.py line 205):
header, seven component rows, then the Total / Available / Utilization rows
between single borders — sixty capture cells in all. -/
def utilToks : List Tok :=
  [.lit "== Utilization Estimates", .ws, .eqs, .ws, .lit "* Summary:", .ws,
   .lit utilBorder, .ws,
   .lit "|       Name      | BRAM_18K| DSP48E|   FF   |   LUT  | URAM|", .ws,
   .lit utilBorder, .ws] ++
  row6Toks ++ [.ws] ++ row6Toks ++ [.ws] ++ row6Toks ++ [.ws] ++
  row6Toks ++ [.ws] ++ row6Toks ++ [.ws] ++ row6Toks ++ [.ws] ++
  row6Toks ++ [.ws, .lit utilBorder, .ws] ++
  row6Toks ++ [.ws, .lit utilBorder, .ws] ++
  row6Toks ++ [.ws, .lit utilBorder, .ws] ++
  row6Toks ++ [.ws, .lit utilBorder]

/-- Python `timing_section = re.search(..., content)`. -/
def structTiming (content : String) : Option (List String) :=
  runSearch timingToks content

/-- Python `latency_section = re.search(..., content)`. -/
def structLatency (content : String) : Option (List String) :=
  runSearch latencyToks content

/-- Python `utilization_section = re.search(..., content)`. -/
def structUtil (content : String) : Option (List String) :=
  runSearch utilToks content

/-! ## Parsed metric records -/

/-- The `report_results["timing"]` record (populated form). -/
structure TimingRec where
  clock : String
  target : Rat
  estimated : Rat
  uncertainty : Rat
  deriving DecidableEq, Repr

/-- The `report_results["latency"]` record (populated form). -/
structure LatencyRec where
  min : PyVal
  max : PyVal
  interval_min : PyVal
  interval_max : PyVal
  pipeline_type : String
  deriving DecidableEq, Repr

/-- A populated resources row: the fixed resource-kind set. -/
structure ResRec where
  BRAM : PyVal
  DSP : PyVal
  FF : PyVal
  LUT : PyVal
  URAM : PyVal
  deriving DecidableEq, Repr

/-- A populated percentage row (raw trimmed strings). -/
structure PctRec where
  BRAM : String
  DSP : String
  FF : String
  LUT : String
  URAM : String
  deriving DecidableEq, Repr

/-- State of one key of the `utilization` dict: absent from the dict,
present and bound to `{}`, or present and bound to a populated record. -/
inductive DictEntry (α : Type) where
  | missing
  | empty
  | val (a : α)
  deriving DecidableEq, Repr

/-- The `report_results["utilization"]` dict. -/
structure UtilDict where
  resources : DictEntry ResRec
  available : DictEntry ResRec
  utilization_percentage : DictEntry PctRec
  deriving DecidableEq, Repr

/-- The dict returned by `parse_reports`.  In the report-missing and
exception branches the dict carries an `"error"` key; in the normal branch
it does not (`error = none`). -/
structure ReportResults where
  error : Option String
  timing : Option TimingRec
  latency : Option LatencyRec
  utilization : UtilDict
  deriving DecidableEq, Repr

/-- The pre-initialised utilization dict (hls_script.py lines 162-165):
`resources` and `utilization_percentage` are bound to `{}`, `available`
is not yet a key. -/
def initUtil : UtilDict := ⟨.empty, .missing, .empty⟩

/-- A completely empty utilization dict (`"utilization": {}`), as returned
by the report-missing and exception branches. -/
def bareUtil : UtilDict := ⟨.missing, .missing, .missing⟩

/-! ## Structural-phase fills -/

/-- The 1-based regex group access, as `utilization_section.group(j)`. -/
def pyGroup (gs : List String) (j : Nat) : String :=
  gs.getD (j - 1) ""

/-- The three row indices found by the scan loop (lines 209-220). -/
structure IdxTriple where
  total_idx : Nat
  available_idx : Nat
  utilization_idx : Nat
  deriving DecidableEq, Repr

/-- Branch condition `group_idx < len(groups) and "Total" in group(group_idx)`
of the scan loop (the group count of the Utilization regex is sixty). -/
def condT (gs : List String) (i : Nat) : Bool :=
  decide (i * 6 + 1 < gs.length) && strContains (pyGroup gs (i * 6 + 1)) "Total"

/-- Branch condition for `"Available"`. -/
def condA (gs : List String) (i : Nat) : Bool :=
  decide (i * 6 + 1 < gs.length) &&
    strContains (pyGroup gs (i * 6 + 1)) "Available"

/-- Branch condition for `"Utilization"`. -/
def condU (gs : List String) (i : Nat) : Bool :=
  decide (i * 6 + 1 < gs.length) &&
    strContains (pyGroup gs (i * 6 + 1)) "Utilization"

/-- One iteration of the scan loop (lines 213-220): `if/elif` on the three
label substrings, overwriting the stored index. -/
def scanStep (gs : List String) (acc : IdxTriple) (i : Nat) : IdxTriple :=
  if condT gs i then { acc with total_idx := i }
  else if condA gs i then { acc with available_idx := i }
  else if condU gs i then { acc with utilization_idx := i }
  else acc

/-- The scan `for i in range(1, 10)` over the Name-column groups `i*6+1`,
keeping the last match of each label. -/
def scanIdx (gs : List String) : IdxTriple :=
  (List.range' 1 9).foldl (scanStep gs) ⟨0, 0, 0⟩

/-- Shorthand for `safe_resource_convert(<group>.strip())`. -/
def srcCell (s : String) : PyVal := safe_resource_convert (pyStrip s)

/-- Build the utilization dict from the sixty matched groups
(lines 207-262): rows are only used through the scanned indices. -/
def buildUtilFromGroups (gs : List String) : UtilDict :=
  { resources :=
      if (scanIdx gs).total_idx > 0 then
        .val ⟨srcCell (pyGroup gs ((scanIdx gs).total_idx * 6 + 2)),
              srcCell (pyGroup gs ((scanIdx gs).total_idx * 6 + 3)),
              srcCell (pyGroup gs ((scanIdx gs).total_idx * 6 + 4)),
              srcCell (pyGroup gs ((scanIdx gs).total_idx * 6 + 5)),
              srcCell (pyGroup gs ((scanIdx gs).total_idx * 6 + 6))⟩
      else .empty
    available :=
      if (scanIdx gs).available_idx > 0 then
        .val ⟨srcCell (pyGroup gs ((scanIdx gs).available_idx * 6 + 2)),
              srcCell (pyGroup gs ((scanIdx gs).available_idx * 6 + 3)),
              srcCell (pyGroup gs ((scanIdx gs).available_idx * 6 + 4)),
              srcCell (pyGroup gs ((scanIdx gs).available_idx * 6 + 5)),
              srcCell (pyGroup gs ((scanIdx gs).available_idx * 6 + 6))⟩
      else .missing
    utilization_percentage :=
      if (scanIdx gs).utilization_idx > 0 then
        .val ⟨pyStrip (pyGroup gs ((scanIdx gs).utilization_idx * 6 + 2)),
              pyStrip (pyGroup gs ((scanIdx gs).utilization_idx * 6 + 3)),
              pyStrip (pyGroup gs ((scanIdx gs).utilization_idx * 6 + 4)),
              pyStrip (pyGroup gs ((scanIdx gs).utilization_idx * 6 + 5)),
              pyStrip (pyGroup gs ((scanIdx gs).utilization_idx * 6 + 6))⟩
      else .empty }

/-- Structural Timing fill (lines 171-177): the three numeric cells go
through `float(...)`, whose `ValueError` aborts the whole parse. -/
def timingFill (c : String) : Except String (Option TimingRec) :=
  match structTiming c with
  | none => .ok none
  | some gs =>
    match pyFloatE (pyStrip (pyGroup gs 2)) with
    | .error e => .error e
    | .ok target =>
      match pyFloatE (pyStrip (pyGroup gs 3)) with
      | .error e => .error e
      | .ok estimated =>
        match pyFloatE (pyStrip (pyGroup gs 4)) with
        | .error e => .error e
        | .ok uncertainty =>
          .ok (some ⟨pyStrip (pyGroup gs 1), target, estimated, uncertainty⟩)

/-- The latency record built from the five matched groups (lines 196-202). -/
def latencyOfGroups (gs : List String) : LatencyRec :=
  ⟨safe_convert (pyStrip (pyGroup gs 1)),
   safe_convert (pyStrip (pyGroup gs 2)),
   safe_convert (pyStrip (pyGroup gs 3)),
   safe_convert (pyStrip (pyGroup gs 4)),
   pyStrip (pyGroup gs 5)⟩

/-- Structural Latency fill (lines 182-202); `safe_convert` never raises. -/
def latencyFill (c : String) : Option LatencyRec :=
  (structLatency c).map latencyOfGroups

/-- Structural Utilization fill (lines 207-262). -/
def utilFill (c : String) : UtilDict :=
  match structUtil c with
  | some gs => buildUtilFromGroups gs
  | none => initUtil

/-- The structural phase of `parse_reports`: the pre-initialised result
dict with the three structural fills applied in source order. -/
def structFill (c : String) : Except String ReportResults :=
  match timingFill c with
  | .error e => .error e
  | .ok t => .ok ⟨none, t, latencyFill c, utilFill c⟩

/-- The guard of the heuristic fallback (line 265):
`not timing_section and not latency_section and not utilization_section`. -/
def allStructFailed (c : String) : Bool :=
  (structTiming c).isNone && (structLatency c).isNone &&
    (structUtil c).isNone

/-! ## Heuristic fallback (lines 264-343) -/

/-- Timing fallback (lines 269-281): take the text between the first
`"Timing (ns)"` header and the next two anchors, scan its lines for the
first delimiter row that is neither header nor border and has at least five
fields, and read clock / target / estimated / uncertainty from fields 1-4.
A missing `"* Summary:"` raises `IndexError`; a bad numeric field raises
`ValueError`; both abort the whole parse. -/
def heurTiming (c : String) : Except String (Option TimingRec) :=
  if strContains c "Timing (ns)" then
    match pyIdx (pySplit c "Timing (ns)") 1 with
    | .error e => .error e
    | .ok seg1 =>
      match pyIdx (pySplit seg1 "* Summary:") 1 with
      | .error e => .error e
      | .ok seg2 =>
        let lines := pySplit seg2 "\n"
        match lines.find? (fun l =>
            strContains l "|" && !strContains l "Clock" &&
            !strContains l "---" && decide (5 ≤ (pySplit l "|").length)) with
        | none => .ok none
        | some l =>
          let parts := pySplit l "|"
          match pyFloatE (pyStrip (parts.getD 2 "")) with
          | .error e => .error e
          | .ok target =>
            match pyFloatE (pyStrip (parts.getD 3 "")) with
            | .error e => .error e
            | .ok estimated =>
              match pyFloatE (pyStrip (parts.getD 4 "")) with
              | .error e => .error e
              | .ok uncertainty =>
                .ok (some ⟨pyStrip (parts.getD 1 ""), target, estimated,
                  uncertainty⟩)
  else .ok none

/-- Latency fallback (lines 284-297): scan for the first delimiter row
that is neither the `min`/`max` header nor a border and has at least seven
fields.  On any such row the code calls `safe_convert` — but that helper
is a function-local `def` executed only inside the structural branch
`if latency_section:` (lines 182-184), which did not run when the fallback
runs (the fallback guard requires `latency_section` to be `None`), so the
name is an unbound local of `parse_reports` and the call raises
`UnboundLocalError` before the latency dict is assigned.  A missing
`"* Summary:"` raises `IndexError` the same way. -/
def heurLatency (c : String) : Except String Unit :=
  if strContains c "Latency (clock cycles)" then
    match pyIdx (pySplit c "Latency (clock cycles)") 1 with
    | .error e => .error e
    | .ok seg1 =>
      match pyIdx (pySplit seg1 "* Summary:") 1 with
      | .error e => .error e
      | .ok seg2 =>
        let lines := pySplit seg2 "\n"
        match lines.find? (fun l =>
            strContains l "|" && !strContains l "min" &&
            !strContains l "---" && decide (7 ≤ (pySplit l "|").length)) with
        | none => .ok ()
        | some _ => .error (pyUnboundLocal "safe_convert")
  else .ok ()

/-- Utilization fallback (lines 300-343): keep the LAST delimiter line per
label (`if/elif` precedence Total > Available > Utilization inside the
loop); when all three lines are found with at least six fields each the
code starts assigning the three sub-dicts — but the very first cell
conversion calls `safe_resource_convert`, a function-local `def` executed
only inside the structural branch `if utilization_section:` (lines
207-235), which did not run when the fallback runs, so the call raises
`UnboundLocalError` (line 322) before any utilization key is added. -/
def heurUtil (c : String) : Except String Unit :=
  if strContains c "Utilization Estimates" then
    match pyIdx (pySplit c "Utilization Estimates") 1 with
    | .error e => .error e
    | .ok seg1 =>
      match pyIdx (pySplit seg1 "* Summary:") 1 with
      | .error e => .error e
      | .ok seg2 =>
        let lines := pySplit seg2 "\n"
        let sel := lines.foldl
          (fun (acc : Option String × Option String × Option String) l =>
            if strContains l "|" then
              if strContains l "Total" then (some l, acc.2.1, acc.2.2)
              else if strContains l "Available" then (acc.1, some l, acc.2.2)
              else if strContains l "Utilization" then (acc.1, acc.2.1, some l)
              else acc
            else acc)
          (none, none, none)
        match sel with
        | (some tl, some al, some ul) =>
          if 6 ≤ (pySplit tl "|").length && 6 ≤ (pySplit al "|").length &&
              6 ≤ (pySplit ul "|").length then
            .error (pyUnboundLocal "safe_resource_convert")
          else .ok ()
        | _ => .ok ()
  else .ok ()

/-- Apply the heuristic fallback to the result of the structural phase
(which, the guard holding, filled nothing).  Only the timing branch can
commit a value (it uses the builtin `float`); the latency and utilization
branches raise `UnboundLocalError` whenever they reach their assignments,
so they can only abort the parse — and an abort also discards a timing
value the fallback had already assigned. -/
def heurFill (c : String) (r : ReportResults) : Except String ReportResults :=
  match heurTiming c with
  | .error e => .error e
  | .ok tOpt =>
    match heurLatency c with
    | .error e => .error e
    | .ok _ =>
      match heurUtil c with
      | .error e => .error e
      | .ok _ =>
        .ok { r with
          timing := match tOpt with | some t => some t | none => r.timing }

/-! ## `parse_reports` and `hls_evaluation` -/

/-- The body of the `try` block of `parse_reports` (lines 149-345). -/
def parseReportsBody (c : String) : Except String ReportResults :=
  match structFill c with
  | .error e => .error e
  | .ok r => if allStructFailed c then heurFill c r else .ok r

/-- The dict returned when the report file never appears within the poll
budget (lines 140-145). -/
def missingReportResults : ReportResults :=
  ⟨some "找不到报告文件", none, none, bareUtil⟩

/-- Function `parse_reports` over the located report content (`none` = the report
file never appeared within the poll budget); the surrounding
`try/except` (lines 346-353) converts any raised error into an
error-carrying empty skeleton. -/
def parse_reports (report : Option String) : ReportResults :=
  match report with
  | none => missingReportResults
  | some c =>
    match parseReportsBody c with
    | .ok r => r
    | .error e => ⟨some ("解析报告文件时出错: " ++ e), none, none, bareUtil⟩

/-- The captured outcome of the spawned synthesis process. -/
structure ProcResult where
  returncode : Int
  stdout : String
  stderr : String
  deriving DecidableEq, Repr

/-- The combined log text persisted to `build/vivado_hls.log`
(lines 103-107): stdout, then — only when stderr is non-empty — a
delimiter and stderr. -/
def combinedLog (p : ProcResult) : String :=
  p.stdout ++ (if p.stderr ≠ "" then "\n\nSTDERR:\n" ++ p.stderr else "")

/-- The path of the combined log inside the workspace. -/
def buildLogPath : String := "build/vivado_hls.log"

/-- Number of existence checks of the report poll loop (`max_wait`). -/
def maxWait : Nat := 3

/-- The poll loop (lines 122-133): check existence, sleep one second,
repeat while `wait_time < max_wait`; `present t` abstracts "the report file
exists at the t-th check" and `remaining` counts the checks still allowed
(`max_wait - wait_time`). -/
def pollGo (present : Nat → Bool) : Nat → Nat → Bool
  | 0, _ => false
  | remaining + 1, t => present t || pollGo present remaining (t + 1)

/-- Whether the report file is found within the poll budget. -/
def pollReport (present : Nat → Bool) : Bool := pollGo present maxWait 0

/-- The dict returned by `hls_evaluation` after the process ran: the
nonzero-exit failure dict (lines 110-114, no `status`, no `log_file` key)
or the success dict (lines 358-365). -/
inductive JobResult where
  | failure (error : String) (raw_log : String)
  | success (timing : Option TimingRec) (latency : Option LatencyRec)
      (utilization : UtilDict) (raw_log : String) (log_file : Option String)
  deriving DecidableEq, Repr

/-- The bounded excerpt of the failure message:
`proc.stderr[-500:] if proc.stderr else proc.stdout[-500:]`. -/
def failureExcerpt (p : ProcResult) : String :=
  if p.stderr ≠ "" then pyTakeRight p.stderr 500 else pyTakeRight p.stdout 500

/-- The part of `hls_evaluation` after the process ran (lines 102-365),
over the captured process outcome and the located report content.  The
combined log `combinedLog p` has already been persisted to `buildLogPath`
at this point, whatever the exit code. -/
def hls_evaluation_result (p : ProcResult) (report : Option String) :
    JobResult :=
  if p.returncode ≠ 0 then
    .failure ("HLS synthesis failed: " ++ failureExcerpt p)
      (if p.stderr ≠ "" then p.stderr else p.stdout)
  else
    let rr := parse_reports report
    .success rr.timing rr.latency rr.utilization p.stdout (some buildLogPath)

/-- The `"error"` key of the returned dict (absent on the success shape). -/
def resultError : JobResult → Option String
  | .failure e _ => some e
  | .success _ _ _ _ _ => none

/-- The `"log_file"` key of the returned dict (absent on the failure
shape of lines 110-114). -/
def resultLogFile : JobResult → Option String
  | .failure _ _ => none
  | .success _ _ _ _ lp => lp

/-! ## The classifier (`verify_c2c.py`) -/

/-- Python `True if "timing" in result and result["timing"] else False`
(verify_c2c.py lines 93 and 110): the failure dict has no `"timing"` key;
the success dict has one, truthy iff the timing dict is non-empty. -/
def synthesizable (r : JobResult) : Bool :=
  match r with
  | .failure _ _ => false
  | .success t _ _ _ _ => t.isSome

/-- The three verdict booleans returned by `verify_example`
(lines 118-124; the id fields are carried through unchanged and omitted). -/
structure VerifyOutcome where
  source_pass : Bool
  rewritten_pass : Bool
  overall_pass : Bool
  deriving DecidableEq, Repr

/-- Function `verify_example` over the two evaluation results: the original is
expected not synthesizable, the rewrite synthesizable. -/
def verify_example (sourceR rewrittenR : JobResult) : VerifyOutcome :=
  let ss := synthesizable sourceR
  let rs := synthesizable rewrittenR
  ⟨!ss, rs, !ss && rs⟩

/-! ## Row-level reading of the utilization classification

The spec (§4.5) describes the scan loop as a classification of the table
rows by label substring, keeping the last match per label.  The following
definitions state that reading; the characterisation lemma below proves the
code's index scan equal to it over the rows the loop actually visits. -/

/-- Data row `i` of the matched Utilization table (0-based; the Name cell
followed by the five resource cells, i.e. groups `i*6+1 .. i*6+6`). -/
def rowAt (gs : List String) (i : Nat) : List String :=
  [pyGroup gs (i * 6 + 1), pyGroup gs (i * 6 + 2), pyGroup gs (i * 6 + 3),
   pyGroup gs (i * 6 + 4), pyGroup gs (i * 6 + 5), pyGroup gs (i * 6 + 6)]

/-- The label cell of a row. -/
def rowLabel (r : List String) : String := r.getD 0 ""

/-- Row role `Total` (mapped to `used`). -/
def roleTotal (r : List String) : Bool := strContains (rowLabel r) "Total"

/-- Row role `Available` (`if/elif` precedence: not a `Total` row). -/
def roleAvail (r : List String) : Bool :=
  !strContains (rowLabel r) "Total" && strContains (rowLabel r) "Available"

/-- Row role `Utilization` (mapped to `percentage`; lowest precedence). -/
def rolePct (r : List String) : Bool :=
  !strContains (rowLabel r) "Total" &&
    !strContains (rowLabel r) "Available" &&
    strContains (rowLabel r) "Utilization"

/-- The `used`/`available` record read from a row's five resource cells. -/
def resOfRow (r : List String) : ResRec :=
  ⟨srcCell (r.getD 1 ""), srcCell (r.getD 2 ""), srcCell (r.getD 3 ""),
   srcCell (r.getD 4 ""), srcCell (r.getD 5 "")⟩

/-- The `percentage` record read from a row (raw trimmed strings). -/
def pctOfRow (r : List String) : PctRec :=
  ⟨pyStrip (r.getD 1 ""), pyStrip (r.getD 2 ""), pyStrip (r.getD 3 ""),
   pyStrip (r.getD 4 ""), pyStrip (r.getD 5 "")⟩

/-- The utilization dict described by the spec over a given list of table
rows: classify each row by label substring into the three roles and keep
the last matching row of each role, ignoring all other rows. -/
def specUtilFromRows (rows : List (List String)) : UtilDict :=
  { resources :=
      match (rows.filter roleTotal).getLast? with
      | some r => .val (resOfRow r)
      | none => .empty
    available :=
      match (rows.filter roleAvail).getLast? with
      | some r => .val (resOfRow r)
      | none => .missing
    utilization_percentage :=
      match (rows.filter rolePct).getLast? with
      | some r => .val (pctOfRow r)
      | none => .empty }

/-- The rows the scan loop actually visits: data rows 1..9 (0-based),
i.e. all rows of the matched table except the first. -/
def utilRowsScanned (gs : List String) : List (List String) :=
  (List.range' 1 9).map (rowAt gs)

/-- All ten data rows of the matched table. -/
def utilRowsAll (gs : List String) : List (List String) :=
  (List.range' 0 10).map (rowAt gs)

/-! ## Characterisation of the index scan -/

/-- Last element of `l` satisfying `p`, else the seed — the shape of one
component of the scan loop. -/
def lastFold (l : List Nat) (p : Nat → Bool) (x : Nat) : Nat :=
  l.foldl (fun acc i => cond (p i) i acc) x

theorem lastFold_eq_filter (l : List Nat) (p : Nat → Bool) (x : Nat) :
    lastFold l p x = (l.filter p).getLastD x := by
  induction l generalizing x with
  | nil => rfl
  | cons a l ih =>
    cases h : p a with
    | true =>
      rw [show lastFold (a :: l) p x = lastFold l p (cond (p a) a x) from rfl,
        List.filter_cons, if_pos h, h, cond_true, List.getLastD_cons]
      exact ih a
    | false =>
      rw [show lastFold (a :: l) p x = lastFold l p (cond (p a) a x) from rfl,
        List.filter_cons, if_neg (by simp [h]), h, cond_false]
      exact ih x

theorem scanStep_components (gs : List String) (acc : IdxTriple) (a : Nat) :
    scanStep gs acc a =
      ⟨cond (condT gs a) a acc.total_idx,
       cond (!condT gs a && condA gs a) a acc.available_idx,
       cond (!condT gs a && !condA gs a && condU gs a) a
         acc.utilization_idx⟩ := by
  unfold scanStep
  cases h1 : condT gs a <;> cases h2 : condA gs a <;> cases h3 : condU gs a <;>
    simp [h1, h2, h3]

theorem foldl_scanStep (gs : List String) (l : List Nat) (acc : IdxTriple) :
    l.foldl (scanStep gs) acc =
      ⟨lastFold l (fun i => condT gs i) acc.total_idx,
       lastFold l (fun i => !condT gs i && condA gs i) acc.available_idx,
       lastFold l (fun i => !condT gs i && !condA gs i && condU gs i)
         acc.utilization_idx⟩ := by
  induction l generalizing acc with
  | nil => rfl
  | cons a l ih =>
    rw [List.foldl_cons, ih, scanStep_components]
    rfl

theorem mem_range19 : ∀ i ∈ List.range' 1 9, 1 ≤ i ∧ i ≤ 9 := by decide

theorem filterOfMap {α β : Type} (f : α → β) (q : β → Bool) (l : List α) :
    (l.map f).filter q = (l.filter (fun a => q (f a))).map f := by
  induction l with
  | nil => rfl
  | cons a l ih =>
    cases h : q (f a) <;> simp [List.map_cons, List.filter_cons, h, ih]

theorem lastOfMap {α β : Type} (f : α → β) (l : List α) :
    (l.map f).getLast? = (l.getLast?).map f := by
  induction l with
  | nil => rfl
  | cons a l ih =>
    cases l with
    | nil => rfl
    | cons b m =>
      rw [List.map_cons, List.map_cons, List.getLast?_cons_cons,
        List.getLast?_cons_cons, ← List.map_cons f b m, ih]

theorem memOfGetLast {α : Type} (l : List α) (a : α) (h : l.getLast? = some a) :
    a ∈ l := by
  induction l with
  | nil => cases h
  | cons b m ih =>
    cases m with
    | nil =>
      cases h
      exact List.mem_cons_self b []
    | cons c m2 =>
      rw [List.getLast?_cons_cons] at h
      exact List.mem_cons_of_mem _ (ih h)

/-- The selected index of one scan component, read as a row selection: the
index is `0` and no row matches, or it is positive and the selected row is
the last matching one among the scanned rows. -/
theorem lastIdx_spec (gs : List String) (pc : Nat → Bool)
    (pr : List String → Bool)
    (hpq : ∀ i ∈ List.range' 1 9, pc i = pr (rowAt gs i)) :
    (lastFold (List.range' 1 9) pc 0 = 0 ∧
      ((utilRowsScanned gs).filter pr).getLast? = none) ∨
    (∃ t, lastFold (List.range' 1 9) pc 0 = t ∧ 0 < t ∧
      ((utilRowsScanned gs).filter pr).getLast? = some (rowAt gs t)) := by
  rw [lastFold_eq_filter, List.filter_congr hpq]
  have hmapfilter : (utilRowsScanned gs).filter pr =
      ((List.range' 1 9).filter (fun i => pr (rowAt gs i))).map (rowAt gs) :=
    filterOfMap (rowAt gs) pr (List.range' 1 9)
  cases hF : ((List.range' 1 9).filter (fun i => pr (rowAt gs i))).getLast? with
  | none =>
    left
    have hFnil : (List.range' 1 9).filter (fun i => pr (rowAt gs i)) = [] :=
      List.getLast?_eq_none_iff.mp hF
    rw [hFnil, hmapfilter, hFnil]
    exact ⟨rfl, rfl⟩
  | some t =>
    right
    refine ⟨t, ?_, ?_, ?_⟩
    · rw [List.getLastD_eq_getLast?, hF]
      rfl
    · have hmem := memOfGetLast _ _ hF
      have hmem2 := List.mem_of_mem_filter hmem
      exact (mem_range19 t hmem2).1
    · rw [hmapfilter, lastOfMap, hF]
      rfl

/-- The scan loop's guard `group_idx < len(groups)` holds for all visited
indices on the sixty groups of the structural matcher. -/
theorem scanGuardHolds (gs : List String) (h : gs.length = 60) :
    ∀ i ∈ List.range' 1 9, decide (i * 6 + 1 < gs.length) = true := by
  intro i hi
  have hb := mem_range19 i hi
  simp only [h, decide_eq_true_eq]
  omega

/-- Characterisation of the structural utilization fill: on the sixty
matched groups, the index scan computes exactly the spec's row
classification over the rows it visits (data rows 1..9, the first data
row excluded). -/
theorem buildUtil_char (gs : List String) (h : gs.length = 60) :
    buildUtilFromGroups gs = specUtilFromRows (utilRowsScanned gs) := by
  have hg := scanGuardHolds gs h
  have hT : ∀ i ∈ List.range' 1 9, condT gs i = roleTotal (rowAt gs i) := by
    intro i hi
    simp only [condT, hg i hi, Bool.true_and]
    rfl
  have hA : ∀ i ∈ List.range' 1 9,
      (!condT gs i && condA gs i) = roleAvail (rowAt gs i) := by
    intro i hi
    simp only [condT, condA, hg i hi, Bool.true_and]
    rfl
  have hU : ∀ i ∈ List.range' 1 9,
      (!condT gs i && !condA gs i && condU gs i) = rolePct (rowAt gs i) := by
    intro i hi
    simp only [condT, condA, condU, hg i hi, Bool.true_and]
    rfl
  have hidx : scanIdx gs =
      ⟨lastFold (List.range' 1 9) (fun i => condT gs i) 0,
       lastFold (List.range' 1 9) (fun i => !condT gs i && condA gs i) 0,
       lastFold (List.range' 1 9)
         (fun i => !condT gs i && !condA gs i && condU gs i) 0⟩ :=
    foldl_scanStep gs (List.range' 1 9) ⟨0, 0, 0⟩
  unfold buildUtilFromGroups specUtilFromRows
  rw [hidx]
  dsimp only
  simp only [UtilDict.mk.injEq]
  refine ⟨?_, ?_, ?_⟩
  · rcases lastIdx_spec gs (fun i => condT gs i) roleTotal hT with
      ⟨hz, hn⟩ | ⟨t, ht, htp, hs⟩
    · rw [hz, hn]
      rfl
    · rw [ht, hs, if_pos htp]
      rfl
  · rcases lastIdx_spec gs (fun i => !condT gs i && condA gs i) roleAvail hA
      with ⟨hz, hn⟩ | ⟨t, ht, htp, hs⟩
    · rw [hz, hn]
      rfl
    · rw [ht, hs, if_pos htp]
      rfl
  · rcases lastIdx_spec gs
      (fun i => !condT gs i && !condA gs i && condU gs i) rolePct hU
      with ⟨hz, hn⟩ | ⟨t, ht, htp, hs⟩
    · rw [hz, hn]
      rfl
    · rw [ht, hs, if_pos htp]
      rfl

/-- Two lists that are permutations of each other and have at most one
element are equal. -/
theorem permShortEq {α : Type} {l₁ l₂ : List α} (hp : l₁.Perm l₂)
    (hl : l₂.length ≤ 1) : l₁ = l₂ := by
  cases l₂ with
  | nil => exact hp.eq_nil
  | cons b m =>
    cases m with
    | nil =>
      have hlen := hp.length_eq
      cases l₁ with
      | nil => cases hlen
      | cons a t =>
        cases t with
        | nil =>
          have hmem : a ∈ [b] := hp.mem_iff.mp (List.mem_cons_self a [])
          simp only [List.mem_singleton] at hmem
          rw [hmem]
        | cons a2 t2 => simp at hlen
    | cons c m2 => simp at hl

theorem isPrefixL_append (l m : List Char) : isPrefixL l (l ++ m) = true := by
  induction l with
  | nil => rfl
  | cons a l ih => simp [isPrefixL, ih]

theorem containsL_nil_pat (l : List Char) : containsL [] l = true := by
  cases l <;> simp [containsL, isPrefixL]

theorem containsL_append_right (pat x l : List Char)
    (h : containsL pat l = true) : containsL pat (x ++ l) = true := by
  induction x with
  | nil => exact h
  | cons c x ih => simp [containsL, ih]

theorem containsL_self (pat l : List Char) : containsL pat (pat ++ l) = true := by
  cases pat with
  | nil => exact containsL_nil_pat l
  | cons p ps => simp [containsL, isPrefixL, isPrefixL_append ps l]

/-! ## Concrete inputs used by the theorems -/

/-- A report in the degraded format of testable property 8: the section
headers and delimiter rows are present but every border line is missing,
so all three structural matchers fail. -/
def degradedReport : String :=
  "Timing (ns)\n* Summary:\n| default | 5.00 | 3.45 | 0.62 |\n" ++
  "+ Latency (clock cycles)\n* Summary:\n| 10 | ? | 1 | 1 | none |\n" ++
  "Utilization Estimates\n* Summary:\n" ++
  "|Total | 4 | 1 | 1000 | 2000 | 0 |\n" ++
  "|Available | 624 | 1728 | 460800 | 230400 | 96 |\n" ++
  "|Utilization (%) | ~0 | ~0 | ~0 | ~0 | 0 |\n"

/-- What `parse_reports` actually returns on `degradedReport`: the
fallback's timing branch extracts the timing row, but the latency branch
then finds its data row and raises `UnboundLocalError` at the
`safe_convert` call, so the whole parse collapses to the error skeleton
— every metric group empty, the extracted timing discarded. -/
def degradedParsed : ReportResults :=
  ⟨some ("解析报告文件时出错: " ++ pyUnboundLocal "safe_convert"),
   none, none, bareUtil⟩

/-- A well-formed report containing only the Utilization section, so the
structural matcher succeeds on it (and classifies an Available row). -/
def utilOnlyReport : String :=
  "== Utilization Estimates\n=================\n* Summary: \n" ++
  "+-----------------+---------+-------+--------+--------+-----+\n" ++
  "|       Name      | BRAM_18K| DSP48E|   FF   |   LUT  | URAM|\n" ++
  "+-----------------+---------+-------+--------+--------+-----+\n" ++
  "|DSP              |        -|      -|       -|       -|    -|\n" ++
  "|Expression       |        -|      -|       0|      34|    -|\n" ++
  "|FIFO             |        -|      -|       -|       -|    -|\n" ++
  "|Instance         |        -|      -|       -|       -|    -|\n" ++
  "|Memory           |        -|      -|       -|       -|    -|\n" ++
  "|Multiplexer      |        -|      -|       -|      63|    -|\n" ++
  "|Register         |        -|      -|      38|       -|    -|\n" ++
  "+-----------------+---------+-------+--------+--------+-----+\n" ++
  "|Total            |        0|      0|      38|      97|    0|\n" ++
  "+-----------------+---------+-------+--------+--------+-----+\n" ++
  "|Available        |      624|   1728|  460800|  230400|   96|\n" ++
  "+-----------------+---------+-------+--------+--------+-----+\n" ++
  "|Utilization (%)  |        0|      0|      ~0|      ~0|    0|\n" ++
  "+-----------------+---------+-------+--------+--------+-----+\n"

/-- What `parse_reports` returns on `utilOnlyReport`: the structural
Utilization match fills all three sub-dicts; Timing and Latency stay `{}`. -/
def utilOnlyParsed : ReportResults :=
  ⟨none, none, none,
   ⟨.val ⟨.vInt 0, .vInt 0, .vInt 38, .vInt 97, .vInt 0⟩,
    .val ⟨.vInt 624, .vInt 1728, .vInt 460800, .vInt 230400, .vInt 96⟩,
    .val ⟨"0", "0", "~0", "~0", "0"⟩⟩⟩

/-- Sixty matched groups whose `Total` row is the FIRST data row (row 0);
every other label cell is inert.  The structural matcher accepts tables of
this shape — the regex constrains the table borders, not the labels. -/
def c5gs : List String :=
  ["Total", "4", "1", "1000", "2000", "0"] ++ List.replicate 54 "x"

/-- Sixty matched groups: `Total` in row 0 (outside the scanned rows),
`Available` in row 1, `Utilization` in row 2. -/
def c9a : List String :=
  ["Total", "1", "2", "3", "4", "5"] ++
  ["Available", "10", "20", "30", "40", "50"] ++
  ["Utilization (%)", "1%", "2%", "3%", "4%", "5%"] ++
  List.replicate 42 "x"

/-- Table `c9a` with the `Total` and `Available` rows exchanged. -/
def c9b : List String :=
  ["Available", "10", "20", "30", "40", "50"] ++
  ["Total", "1", "2", "3", "4", "5"] ++
  ["Utilization (%)", "1%", "2%", "3%", "4%", "5%"] ++
  List.replicate 42 "x"

/-- Sixty matched groups with all three labelled rows inside the scanned
region: `Total` in row 1, `Available` in row 2, `Utilization` in row 3. -/
def c9wa : List String :=
  List.replicate 6 "x" ++
  ["Total", "1", "2", "3", "4", "5"] ++
  ["Available", "10", "20", "30", "40", "50"] ++
  ["Utilization (%)", "1%", "2%", "3%", "4%", "5%"] ++
  List.replicate 36 "y"

/-- Table `c9wa` with the `Total` and `Available` rows exchanged. -/
def c9wb : List String :=
  List.replicate 6 "x" ++
  ["Available", "10", "20", "30", "40", "50"] ++
  ["Total", "1", "2", "3", "4", "5"] ++
  ["Utilization (%)", "1%", "2%", "3%", "4%", "5%"] ++
  List.replicate 36 "y"

/-- The spec's classifier (§4.7), stated as written: success, timing
present, and a non-empty clock name. -/
def specSynthesizable (r : JobResult) : Prop :=
  ∃ t l u raw lp, r = .success (some t) l u raw lp ∧ t.clock ≠ ""

/-- A success outcome whose structurally parsed timing has an empty clock
name (the regex cell `[^|]+` matches a blank cell, which strips to `""`). -/
def c4cex : JobResult :=
  .success (some ⟨"", mkRat 5 1, mkRat 69 20, mkRat 31 50⟩) none bareUtil
    "log" (some buildLogPath)

/-- Whether an `Available`-labelled row was actually classified into the
result during the parse of `c`.  Only the structural index scan can do so:
the fallback raises `UnboundLocalError` at its first cell conversion,
before its three-dict assignment commits, so no fallback run ever adds an
`available` key. -/
def availClassified (c : String) : Bool :=
  match structUtil c with
  | some gs => decide (0 < (scanIdx gs).available_idx)
  | none => false

/-! ## Claim theorems -/

set_option maxRecDepth 200000

/-- C1 (counterexample): with exit code 0 and no report within the poll
budget, the dict returned by `hls_evaluation` (lines 358-365) has no
`"error"` key at all — the "report not found" note of the inner parse
result is not copied into it, contradicting the claim that the returned
result carries an explicit error note. -/
theorem c1_counterexample :
    resultError (hls_evaluation_result ⟨0, "out", "err"⟩ none) = none ∧
    hls_evaluation_result ⟨0, "out", "err"⟩ none =
      .success none none bareUtil "out" (some buildLogPath) := by
  exact ⟨rfl, rfl⟩

/-- C1 (amended): for every job whose process exits 0 and whose report
never appears within the poll budget (3 existence checks), the returned
result is success-shaped with all three metric groups empty and a non-null
log path; the explicit "report not found" note exists only in the internal
parse result and is not part of the returned result. -/
theorem c1_missing_report_success_shape :
    (∀ out err : String,
      hls_evaluation_result ⟨0, out, err⟩ none =
        .success none none bareUtil out (some buildLogPath) ∧
      resultError (hls_evaluation_result ⟨0, out, err⟩ none) = none) ∧
    (parse_reports none).error = some "找不到报告文件" ∧
    (∀ present : Nat → Bool,
      (pollReport present = false ↔
        present 0 = false ∧ present 1 = false ∧ present 2 = false)) := by
  refine ⟨fun out err => ⟨rfl, rfl⟩, rfl, fun present => ?_⟩
  have hun : pollReport present =
      (present 0 || (present 1 || (present 2 || false))) := rfl
  rw [hun]
  cases h0 : present 0 <;> cases h1 : present 1 <;> cases h2 : present 2 <;>
    simp

/-- C2 (code bug): the heuristic fallback is invoked exactly when the
structural match fails for all three sections at once (line 265), but it
cannot deliver what the claim (and the fallback's own purpose) states: on
the border-less `degradedReport` — on which all three structural matchers
fail — it raises `UnboundLocalError` at its first `safe_convert` call
(the helper is local to the structural latency branch, which did not run)
and the parse returns the error skeleton with every metric group empty,
instead of the extracted timing/latency/utilization values. -/
theorem c2_fallback_crash :
    (∀ c, allStructFailed c = false → parseReportsBody c = structFill c) ∧
    (∀ c r, allStructFailed c = true → structFill c = .ok r →
      parseReportsBody c = heurFill c r) ∧
    allStructFailed degradedReport = true ∧
    parse_reports (some degradedReport) = degradedParsed := by
  refine ⟨?_, ?_, by decide, by decide⟩
  · intro c hfail
    unfold parseReportsBody
    cases hs : structFill c with
    | error e => rfl
    | ok r => simp [hfail]
  · intro c r hfail hok
    unfold parseReportsBody
    rw [hok, hfail]
    simp

/-- C2 (witness): on the degraded report the guard holds, the structural
phase produces the untouched skeleton, and the parse is the fallback's. -/
theorem c2_witness :
    parseReportsBody degradedReport =
      heurFill degradedReport ⟨none, none, none, initUtil⟩ :=
  c2_fallback_crash.2.1 degradedReport ⟨none, none, none, initUtil⟩
    (by decide) rfl

/-- C3 (counterexample): on a nonzero exit the returned dict
(lines 111-114) has no `log_file` key, although the combined log was
persisted just before — the log path is not part of the failure outcome. -/
theorem c3_counterexample :
    hls_evaluation_result ⟨1, "o", "e"⟩ none =
      .failure "HLS synthesis failed: e" "e" ∧
    resultLogFile (hls_evaluation_result ⟨1, "o", "e"⟩ none) = none := by
  exact ⟨rfl, rfl⟩

/-- C3 (amended): after the process runs the combined log (stdout, plus
stderr behind a delimiter when non-empty) is persisted to the workspace
log path for success and failure alike, but its path is part of the
returned outcome only on the success shape; the failure dict carries no
log path. -/
theorem c3_log_persistence (p : ProcResult) (report : Option String) :
    isPrefixL p.stdout.data (combinedLog p).data = true ∧
    (p.stderr = "" → combinedLog p = p.stdout) ∧
    (p.stderr ≠ "" →
      strContains (combinedLog p) ("STDERR:\n" ++ p.stderr) = true) ∧
    (p.returncode = 0 →
      resultLogFile (hls_evaluation_result p report) = some buildLogPath) ∧
    (p.returncode ≠ 0 →
      resultLogFile (hls_evaluation_result p report) = none) := by
  refine ⟨?_, ?_, ?_, ?_, ?_⟩
  · unfold combinedLog
    rw [String.data_append]
    exact isPrefixL_append _ _
  · intro he
    unfold combinedLog
    rw [if_neg (by simp [he])]
    exact String.append_empty p.stdout
  · intro hne
    unfold combinedLog strContains
    rw [if_pos hne, String.data_append, String.data_append,
      String.data_append,
      show ("\n\nSTDERR:\n").data = '\n' :: '\n' :: ("STDERR:\n").data
        from rfl]
    apply containsL_append_right
    have hs := containsL_self (("STDERR:\n").data ++ p.stderr.data) []
    rw [List.append_nil] at hs
    exact containsL_append_right _ ['\n', '\n'] _ hs
  · intro h0
    unfold hls_evaluation_result
    rw [if_neg (by simp [h0])]
    rfl
  · intro hne
    unfold hls_evaluation_result
    rw [if_pos hne]
    rfl

/-- C3 (witness): concrete success and failure runs. -/
theorem c3_witness :
    resultLogFile (hls_evaluation_result ⟨0, "out", "err"⟩ none) =
      some buildLogPath ∧
    strContains (combinedLog ⟨0, "out", "err"⟩) ("STDERR:\n" ++ "err") =
      true ∧
    resultLogFile (hls_evaluation_result ⟨2, "out", "err"⟩ none) = none :=
  ⟨(c3_log_persistence ⟨0, "out", "err"⟩ none).2.2.2.1 rfl,
   (c3_log_persistence ⟨0, "out", "err"⟩ none).2.2.1 (by decide),
   (c3_log_persistence ⟨2, "out", "err"⟩ none).2.2.2.2 (by decide)⟩

/-- C4 (counterexample): the classifier of `verify_c2c.py` line 93 tests
only that the `timing` dict is present and non-empty; an outcome whose
timing has an empty clock name is classified synthesizable, while the
claimed classifier requires a non-empty clock name. -/
theorem c4_counterexample :
    synthesizable c4cex = true ∧ ¬ specSynthesizable c4cex := by
  refine ⟨rfl, ?_⟩
  rintro ⟨t, l, u, raw, lp, heq, hne⟩
  rw [show c4cex = .success
      (some ⟨"", mkRat 5 1, mkRat 69 20, mkRat 31 50⟩) none bareUtil
      "log" (some buildLogPath) from rfl] at heq
  injection heq with h1 h2 h3 h4 h5
  injection h1 with h1a
  rw [← h1a] at hne
  exact hne rfl

/-- C4 (amended): an outcome is classified synthesizable iff it is the
success shape with a present (non-empty) timing dict — the clock name is
not consulted; a verification pass succeeds iff the original is not
synthesizable and the rewrite is, both sub-checks being reported. -/
theorem c4_classifier :
    (∀ r : JobResult, synthesizable r = true ↔
      ∃ t l u raw lp, r = .success (some t) l u raw lp) ∧
    (∀ s w : JobResult,
      (verify_example s w).source_pass = !synthesizable s ∧
      (verify_example s w).rewritten_pass = synthesizable w ∧
      ((verify_example s w).overall_pass = true ↔
        synthesizable s = false ∧ synthesizable w = true)) := by
  constructor
  · intro r
    constructor
    · intro h
      cases r with
      | failure e raw => simp [synthesizable] at h
      | success t l u raw lp =>
        cases t with
        | none => simp [synthesizable] at h
        | some tv => exact ⟨tv, l, u, raw, lp, rfl⟩
    · rintro ⟨t, l, u, raw, lp, rfl⟩
      rfl
  · intro s w
    refine ⟨rfl, rfl, ?_⟩
    cases hs : synthesizable s <;> cases hw : synthesizable w <;>
      simp [verify_example, hs, hw]

/-- C5 (counterexample): the scan `for i in range(1, 10)` never examines
the first data row (its index would be the `0` that also means "not
found"), so a structurally matched table whose `Total` label sits in the
first row is parsed with empty `resources`, while classifying all rows
would fill them. -/
theorem c5_counterexample :
    c5gs.length = 60 ∧
    buildUtilFromGroups c5gs ≠ specUtilFromRows (utilRowsAll c5gs) ∧
    (buildUtilFromGroups c5gs).resources = .empty := by
  exact ⟨by decide, by decide, by decide⟩

/-- C5 (amended): for every structurally matched utilization table
(sixty groups), the parser classifies the data rows it scans — rows 2..10,
every row except the first — by label substring into the three roles,
keeping the last matching row per label and ignoring all other rows. -/
theorem c5_row_classification (gs : List String) (h : gs.length = 60) :
    buildUtilFromGroups gs = specUtilFromRows (utilRowsScanned gs) :=
  buildUtil_char gs h

/-- C5 (witness): the amended classification at a concrete table. -/
theorem c5_witness :
    buildUtilFromGroups c9wa = specUtilFromRows (utilRowsScanned c9wa) :=
  c5_row_classification c9wa (by decide)

/-- C6: a nonzero exit code yields the failure outcome whose message is a
bounded excerpt — the last at most 500 characters of stderr, or of stdout
when stderr is empty — with the raw log carrying the chosen full stream. -/
theorem c6_failure_excerpt (p : ProcResult) (report : Option String)
    (h : p.returncode ≠ 0) :
    hls_evaluation_result p report =
      .failure ("HLS synthesis failed: " ++ failureExcerpt p)
        (if p.stderr ≠ "" then p.stderr else p.stdout) ∧
    (failureExcerpt p).data.length ≤ 500 ∧
    (p.stderr ≠ "" → failureExcerpt p = pyTakeRight p.stderr 500) ∧
    (p.stderr = "" → failureExcerpt p = pyTakeRight p.stdout 500) ∧
    (∀ s : String, (pyTakeRight s 500).data.length ≤ 500 ∧
      (pyTakeRight s 500).data <:+ s.data) := by
  refine ⟨?_, ?_, ?_, ?_, ?_⟩
  · unfold hls_evaluation_result
    rw [if_pos h]
  · unfold failureExcerpt pyTakeRight
    split <;> simp [List.length_drop] <;> omega
  · intro hne
    unfold failureExcerpt
    rw [if_pos hne]
  · intro he
    unfold failureExcerpt
    rw [if_neg (by simp [he])]
  · intro s
    constructor
    · simp [pyTakeRight, List.length_drop]
      omega
    · simpa [pyTakeRight] using List.drop_suffix (s.data.length - 500) s.data

/-- C6 (witness): a concrete failing run with non-empty stderr. -/
theorem c6_witness :
    hls_evaluation_result ⟨1, "", "boom"⟩ none =
      .failure ("HLS synthesis failed: " ++ failureExcerpt ⟨1, "", "boom"⟩)
        (if ("boom" : String) ≠ "" then ("boom" : String) else "") :=
  (c6_failure_excerpt ⟨1, "", "boom"⟩ none (by decide)).1

/-- C7: `safe_convert` is the ordered fallback — the trimmed unknown
marker `"?"` becomes the unresolved sentinel (kept verbatim, never `0`),
then integer parse, then float parse, then the trimmed literal text; in
particular a latency `max` cell of `"?"` yields `max` equal to the
sentinel, never 0 and never absent (the record always carries the field). -/
theorem c7_safe_convert_order :
    (∀ s : String, pyStrip s = "?" → safe_convert s = .vStr "?") ∧
    (∀ (s : String) (n : Int), pyStrip s ≠ "?" →
      pyInt (pyStrip s) = some n → safe_convert s = .vInt n) ∧
    (∀ (s : String) (q : Rat), pyStrip s ≠ "?" →
      pyInt (pyStrip s) = none → pyFloat (pyStrip s) = some q →
      safe_convert s = .vRat q) ∧
    (∀ s : String, pyStrip s ≠ "?" → pyInt (pyStrip s) = none →
      pyFloat (pyStrip s) = none → safe_convert s = .vStr (pyStrip s)) ∧
    (PyVal.vStr "?" ≠ .vInt 0) ∧
    (∀ gs : List String, pyStrip (pyGroup gs 2) = "?" →
      (latencyOfGroups gs).max = .vStr "?") := by
  refine ⟨?_, ?_, ?_, ?_, by decide, ?_⟩
  · intro s hq
    simp only [safe_convert]
    rw [if_pos hq]
  · intro s n hq hi
    simp only [safe_convert]
    rw [if_neg hq, hi]
  · intro s q hq hi hf
    simp only [safe_convert]
    rw [if_neg hq, hi, hf]
  · intro s hq hi hf
    simp only [safe_convert]
    rw [if_neg hq, hi, hf]
  · intro gs hmax
    show safe_convert (pyStrip (pyGroup gs 2)) = _
    rw [hmax]
    decide

/-- C7 (witness): the four stages of the fallback at concrete cells. -/
theorem c7_witness :
    safe_convert " ? " = .vStr "?" ∧
    safe_convert " 12 " = .vInt 12 ∧
    safe_convert "3.5" = .vRat (mkRat 7 2) ∧
    safe_convert "none" = .vStr (pyStrip "none") :=
  ⟨c7_safe_convert_order.1 " ? " (by decide),
   c7_safe_convert_order.2.1 " 12 " 12 (by decide) (by decide),
   c7_safe_convert_order.2.2.1 "3.5" (mkRat 7 2) (by decide) (by decide)
     (by decide),
   c7_safe_convert_order.2.2.2.1 "none" (by decide) (by decide) (by decide)⟩

/-- C8: in `safe_resource_convert` a literal dash parses to the integer 0
(not applicable), the unknown marker parses to the unresolved sentinel,
the two results never compare equal, and every other cell goes through
exactly the `safe_convert` fallback chain. -/
theorem c8_dash_vs_unknown :
    safe_resource_convert "-" = .vInt 0 ∧
    safe_resource_convert "?" = .vStr "?" ∧
    PyVal.vInt 0 ≠ .vStr "?" ∧
    (∀ s : String, pyStrip s ≠ "-" →
      safe_resource_convert s = safe_convert s) := by
  refine ⟨rfl, rfl, by decide, ?_⟩
  intro s h
  simp only [safe_resource_convert, safe_convert]
  by_cases h1 : pyStrip s = "?"
  · rw [if_pos h1, if_pos h1]
  · rw [if_neg h1, if_neg h1, if_neg h]

/-- C8 (witness): an ordinary numeric cell takes the shared chain. -/
theorem c8_witness : safe_resource_convert " 7 " = safe_convert " 7 " :=
  c8_dash_vs_unknown.2.2.2 " 7 " (by decide)

/-- C9 (counterexample): permuting the Total/Available/Utilization rows of
an accepted table does NOT always preserve the parsed result: `c9a` and
`c9b` differ only by exchanging the Total and Available rows, but the
exchange moves a labelled row into the unscanned first data row, and the
parsed utilization dicts differ. -/
theorem c9_counterexample :
    c9a.length = 60 ∧ c9b.length = 60 ∧
    (utilRowsAll c9b).Perm (utilRowsAll c9a) ∧
    buildUtilFromGroups c9b ≠ buildUtilFromGroups c9a := by
  refine ⟨by decide, by decide, ?_, by decide⟩
  rw [show utilRowsAll c9a = ["Total", "1", "2", "3", "4", "5"] ::
        ["Available", "10", "20", "30", "40", "50"] ::
        (List.range' 2 8).map (rowAt c9a) from by decide,
      show utilRowsAll c9b = ["Available", "10", "20", "30", "40", "50"] ::
        ["Total", "1", "2", "3", "4", "5"] ::
        (List.range' 2 8).map (rowAt c9a) from by decide]
  exact List.Perm.swap _ _ _

/-- C9 (amended): permuting the scanned data rows (rows 2..10 — the first
data row is outside the scan) of a structurally matched table in which at
most one scanned row matches each of the three labels yields an identical
parsed utilization result. -/
theorem c9_perm_invariance (gs gs' : List String) (h : gs.length = 60)
    (h' : gs'.length = 60)
    (hperm : (utilRowsScanned gs').Perm (utilRowsScanned gs))
    (hT : ((utilRowsScanned gs).filter roleTotal).length ≤ 1)
    (hA : ((utilRowsScanned gs).filter roleAvail).length ≤ 1)
    (hP : ((utilRowsScanned gs).filter rolePct).length ≤ 1) :
    buildUtilFromGroups gs' = buildUtilFromGroups gs := by
  rw [buildUtil_char gs h, buildUtil_char gs' h']
  unfold specUtilFromRows
  rw [permShortEq (hperm.filter roleTotal) hT,
    permShortEq (hperm.filter roleAvail) hA,
    permShortEq (hperm.filter rolePct) hP]

/-- C9 (witness): exchanging the Total and Available rows inside the
scanned region leaves the parsed result unchanged. -/
theorem c9_witness : buildUtilFromGroups c9wb = buildUtilFromGroups c9wa :=
  c9_perm_invariance c9wa c9wb (by decide) (by decide)
    (by
      rw [show utilRowsScanned c9wa = ["Total", "1", "2", "3", "4", "5"] ::
            ["Available", "10", "20", "30", "40", "50"] ::
            (List.range' 3 7).map (rowAt c9wa) from by decide,
          show utilRowsScanned c9wb =
            ["Available", "10", "20", "30", "40", "50"] ::
            ["Total", "1", "2", "3", "4", "5"] ::
            (List.range' 3 7).map (rowAt c9wa) from by decide]
      exact List.Perm.swap _ _ _)
    (by decide) (by decide) (by decide)

/-- C10: the utilization dict of a parse that located the report and did
not raise always carries the `resources` and `utilization_percentage`
keys (pre-initialised, possibly still `{}`), carries `available` exactly
when an Available-labelled row was classified, and is completely empty —
none of the three keys — when the report is missing or the parser raised. -/
theorem c10_utilization_keys :
    (parse_reports none).utilization = bareUtil ∧
    (∀ c e, parseReportsBody c = .error e →
      (parse_reports (some c)).utilization = bareUtil) ∧
    (∀ c r, parseReportsBody c = .ok r →
      parse_reports (some c) = r ∧
      r.utilization.resources ≠ .missing ∧
      r.utilization.utilization_percentage ≠ .missing ∧
      (r.utilization.available ≠ DictEntry.missing ↔
        availClassified c = true)) := by
  refine ⟨rfl, ?_, ?_⟩
  · intro c e h
    unfold parse_reports
    dsimp only
    rw [h]
  · intro c r h
    have hpr : parse_reports (some c) = r := by
      unfold parse_reports
      dsimp only
      rw [h]
    refine ⟨hpr, ?_⟩
    unfold parseReportsBody at h
    split at h
    · exact absurd h (by simp)
    · rename_i r0 heq
      have hr0util : r0.utilization = utilFill c := by
        unfold structFill at heq
        split at heq
        · exact absurd heq (by simp)
        · rename_i t ht
          injection heq with heq2
          rw [← heq2]
      by_cases hf : allStructFailed c = true
      · rw [if_pos hf] at h
        have hu : structUtil c = none := by
          simp only [allStructFailed, Bool.and_eq_true,
            Option.isNone_iff_eq_none] at hf
          exact hf.2
        unfold heurFill at h
        split at h
        · exact absurd h (by simp)
        · rename_i tOpt htm
          split at h
          · exact absurd h (by simp)
          · split at h
            · exact absurd h (by simp)
            · injection h with h2
              subst h2
              refine ⟨?_, ?_, ?_⟩ <;>
                simp only [hr0util, utilFill, hu, availClassified] <;>
                simp [initUtil]
      · rw [if_neg hf] at h
        injection h with h2
        rw [← h2, hr0util]
        unfold utilFill
        have hf' : allStructFailed c = false := by
          cases hff : allStructFailed c
          · rfl
          · exact absurd hff hf
        cases hu : structUtil c with
        | some gs =>
          unfold buildUtilFromGroups
          refine ⟨?_, ?_, ?_⟩
          · dsimp only
            split <;> simp
          · dsimp only
            split <;> simp
          · dsimp only
            constructor
            · intro hav
              by_cases hb : (scanIdx gs).available_idx > 0
              · simp [availClassified, hu, hb]
              · rw [if_neg hb] at hav
                exact absurd rfl hav
            · intro hav
              simp only [availClassified, hu,
                decide_eq_true_eq] at hav
              rw [if_pos hav]
              simp
        | none =>
          refine ⟨by simp [initUtil], by simp [initUtil], ?_⟩
          simp [initUtil, availClassified, hu, hf']

/-- C10 (witness): the invariant at a concrete report whose structural
Utilization match classifies an Available row. -/
theorem c10_witness :
    parse_reports (some utilOnlyReport) = utilOnlyParsed ∧
    utilOnlyParsed.utilization.resources ≠ .missing ∧
    utilOnlyParsed.utilization.available ≠ DictEntry.missing :=
  have h := c10_utilization_keys.2.2 utilOnlyReport utilOnlyParsed rfl
  ⟨h.1, h.2.1, h.2.2.2.mpr (by decide)⟩
